import Mathlib

/-!
Shallow embedding of the buffered-read / seek core of BeQuic, class
`BeQuicSpdyClient` in `src/chromium/be_quic_spdy_client.cc`.

Modelling conventions:
* Bytes are `Nat`; the retained FIFO window `response_buff_` (a streambuf
  accessed through `istream_`/`ostream_`) is a `List Nat` whose head is the
  next byte the reader receives.  `ostream_.write` is append at the tail,
  `istream_.read n` takes `n` bytes from the head, `consume n` drops `n`
  bytes from the head.
* `content_length_` and `read_offset_` are `int64_t` in the source and are
  modelled as `Int` (no arithmetic in the source can overflow 64 bits for
  the inputs considered).  `-1` is the unknown-length sentinel.
* `size_t` casts: `read_body` computes
  `std::min<size_t>((size_t)size, response_buff_.size())`; the C++
  conversion of nonnegative or negative `int` to `size_t` is value mod
  2^64, embedded as `castSizeT`.
* The error-code constants (`kBeQuicErrorCode_*`) are declared in
  `be_quic_define.h`, which only names them; the spec's error taxonomy
  says they are pairwise-distinct statuses, distinct from byte counts and
  offsets, so results are embedded as inductive types (`ReadResult`,
  `SeekResult`) with one constructor per `break` arm of the source.
* Pointer arguments (`buf`, `target_off`, the stream and session
  pointers) are modelled by `Bool` null-flags plus, for `target_off`, an
  `Option Int` output holding the value stored through the pointer.
* The single condition wait in `read_body` (lines 104-115: a `while` loop
  whose body unconditionally `break`s after at most one
  `cond_.wait_until`/`cond_.wait`) is modelled by one optional append of
  `arrivals` — the bytes the delivery callback pushes while the reader is
  blocked — plus a returned count of waits performed (0 or 1).
-/

/-- Source line 38: `const int kReadBlockSize = 32768;`. -/
def kReadBlockSize : Int := 32768

/-- Source line 31: `#define AVSEEK_SIZE 0x10000`. -/
def AVSEEK_SIZE : Int := 0x10000

/-- Source line 32: `#define SEEK_SET 0`. -/
def SEEK_SET : Int := 0

/-- Source line 33: `#define SEEK_CUR 1`. -/
def SEEK_CUR : Int := 1

/-- Source line 34: `#define SEEK_END 2`. -/
def SEEK_END : Int := 2

/-- The fields of `BeQuicSpdyClient` that the buffered-read / seek core
reads and writes: `content_length_` (`-1` = unknown), `read_offset_`,
`response_buff_`, `current_stream_id_` (`0` = unbound), `got_first_data_`. -/
structure ClientState where
  content_length : Int
  read_offset : Int
  response_buff : List Nat
  current_stream_id : Nat
  got_first_data : Bool
deriving DecidableEq, Repr

/-- Result of `read_body`: a byte count (`ret` ≥ 0, including the default
`ret = 0`), or one of the error codes `kBeQuicErrorCode_Invalid_Param`,
`kBeQuicErrorCode_Eof` returned by its early `break` arms. -/
inductive ReadResult where
  | ok (n : Nat)
  | invalidParam
  | eof
deriving DecidableEq, Repr

/-- Result of `seek_in_buffer`: a resolved offset, or one of the error
codes `kBeQuicErrorCode_Not_Supported`, `kBeQuicErrorCode_Invalid_State`,
`kBeQuicErrorCode_Invalid_Param`, `kBeQuicErrorCode_Buffer_Not_Hit`. -/
inductive SeekResult where
  | ok (off : Int)
  | notSupported
  | invalidState
  | invalidParam
  | bufferNotHit
deriving DecidableEq, Repr

/-- Source lines 246-274, `BeQuicSpdyClient::is_buffer_sufficient`,
branch for branch (`size` is `response_buff_.size()`). -/
def is_buffer_sufficient (content_length read_offset : Int) (size : Nat) : Bool :=
  if content_length = -1 then decide (0 < size)
  else if size = 0 then false
  else if content_length - read_offset < kReadBlockSize then true
  else if (size : Int) < kReadBlockSize then false
  else true

/-- The sufficiency predicate as the spec's §4.3 words it: four rules
evaluated in order — unknown length: sufficient iff some data is retained;
empty window: not sufficient; remaining expected bytes below one
read-block unit: sufficient; otherwise sufficient iff at least one
read-block unit is retained. -/
def sufficiencySpec (content_length read_offset : Int) (size : Nat) : Bool :=
  if content_length = -1 then decide (0 < size)
  else if size = 0 then false
  else if content_length - read_offset < kReadBlockSize then true
  else decide (kReadBlockSize ≤ (size : Int))

/-- C++ conversion of a (possibly negative) `int` value to `size_t`:
value mod 2^64. -/
def castSizeT (i : Int) : Nat := (i % (2 : Int) ^ 64).toNat

/-- Source lines 90-127, `BeQuicSpdyClient::read_body`.
`bufNull` models `buf == NULL`; `arrivals` are the bytes the delivery
callback appends while the reader is blocked on `cond_` (appended exactly
when a wait happens, i.e. the buffer is insufficient and `timeout != 0`).
Returns `(ret, new state, bytes copied out, number of waits performed)`. -/
def read_body (st : ClientState) (bufNull : Bool) (size : Int) (timeout : Int)
    (arrivals : List Nat) : ReadResult × ClientState × List Nat × Nat :=
  if bufNull = true ∨ size = 0 then (.invalidParam, st, [], 0)
  else if 0 < st.content_length ∧ st.content_length ≤ st.read_offset then
    (.eof, st, [], 0)
  else
    let waits : Nat :=
      if is_buffer_sufficient st.content_length st.read_offset st.response_buff.length then 0
      else if timeout = 0 then 0 else 1
    let buf1 : List Nat := if waits = 1 then st.response_buff ++ arrivals else st.response_buff
    let read_len : Nat := min (castSizeT size) buf1.length
    if read_len = 0 then (.ok 0, { st with response_buff := buf1 }, [], waits)
    else
      (.ok read_len,
        { st with
            response_buff := buf1.drop read_len,
            read_offset := st.read_offset + (read_len : Int) },
        buf1.take read_len, waits)

/-- Source lines 129-188, `BeQuicSpdyClient::seek_in_buffer`.
`targetNull` models `target_off == NULL`; the third component of the
result is the value stored through `target_off` (`none` when nothing is
stored).  The `content_length_ == -1 && whence == SEEK_END` arm of the
source (lines 149-152) is kept even though the first arm already returned
on `content_length_ == -1`. -/
def seek_in_buffer (st : ClientState) (off0 : Int) (whence : Int)
    (targetNull : Bool) : SeekResult × ClientState × Option Int :=
  if st.content_length = -1 then (.notSupported, st, none)
  else if whence = AVSEEK_SIZE then (.ok st.content_length, st, none)
  else if (whence = SEEK_CUR ∧ off0 = 0) ∨ (whence = SEEK_SET ∧ off0 = st.read_offset) then
    (.ok off0, st, none)
  else if st.content_length = -1 ∧ whence = SEEK_END then (.invalidState, st, none)
  else if whence ≠ SEEK_CUR ∧ whence ≠ SEEK_END ∧ whence ≠ SEEK_SET then
    (.invalidParam, st, none)
  else
    let off : Int :=
      if whence = SEEK_CUR then off0 + st.read_offset
      else if whence = SEEK_END then off0 + st.content_length
      else off0
    if off < 0 then (.invalidParam, st, none)
    else
      let left_size : Int := (st.response_buff.length : Int)
      let consume_size : Int := off - st.read_offset
      if 0 < consume_size ∧ consume_size < left_size then
        (.ok off,
          { st with
              response_buff := st.response_buff.drop consume_size.toNat,
              read_offset := off },
          none)
      else (.bufferNotHit, st, if targetNull then none else some off)

/-- Source lines 190-217, `BeQuicSpdyClient::close_current_stream`.
`sessionNull` models `QuicClientBase::session() == NULL`; the
`SendRstStream`/`CloseStream` calls are transport-side effects with no
effect on the embedded state. -/
def close_current_stream (st : ClientState) (sessionNull : Bool) : Bool × ClientState :=
  if st.current_stream_id = 0 then (false, st)
  else if sessionNull then (false, st)
  else (true, { st with current_stream_id := 0, read_offset := 0, response_buff := [] })

/-- Source lines 219-244, `BeQuicSpdyClient::on_data`.
`streamNull` models `stream == NULL`, `stream_id` is `stream->id()`,
`declared_length` is `bequic_stream->check_content_length()` (supplied by
the transport), `bufNull` models `buf == NULL` and `chunk` the `size`
bytes at `buf`.  Returns the new state and whether `cond_.notify_all()`
was invoked. -/
def on_data (st : ClientState) (streamNull : Bool) (stream_id : Nat)
    (declared_length : Int) (bufNull : Bool) (chunk : List Nat) :
    ClientState × Bool :=
  if streamNull then (st, false)
  else
    let st1 :=
      if st.current_stream_id = 0 then { st with current_stream_id := stream_id } else st
    let st2 :=
      if st1.got_first_data then st1
      else { st1 with content_length := declared_length, got_first_data := true }
    if ¬ bufNull ∧ 0 < chunk.length then
      let st3 := { st2 with response_buff := st2.response_buff ++ chunk }
      (st3, is_buffer_sufficient st3.content_length st3.read_offset st3.response_buff.length)
    else (st2, false)

/-- The retained window as `read_body` sees it when it reaches the copy
step: unchanged when it was already sufficient or `timeout == 0` (no
wait), otherwise with the bytes that arrived during the single wait
appended. -/
def postWaitWindow (st : ClientState) (timeout : Int) (arrivals : List Nat) : List Nat :=
  if is_buffer_sufficient st.content_length st.read_offset st.response_buff.length = true
      ∨ timeout = 0 then
    st.response_buff
  else st.response_buff ++ arrivals

/-- One observable operation on the client: a delivery-callback invocation
or a `read_body` call. -/
inductive Op where
  | deliver (streamNull : Bool) (stream_id : Nat) (declared_length : Int)
      (bufNull : Bool) (chunk : List Nat)
  | readOp (bufNull : Bool) (size : Int) (timeout : Int) (arrivals : List Nat)
deriving Repr

/-- Run one operation; returns the new state, the bytes the operation
returned to the reader, and the bytes the delivery callback appended to
the window during the operation. -/
def stepOp (st : ClientState) : Op → ClientState × List Nat × List Nat
  | .deliver sn sid dl bn chunk =>
    ((on_data st sn sid dl bn chunk).1, [],
      if ¬ sn ∧ ¬ bn ∧ 0 < chunk.length then chunk else [])
  | .readOp bn size timeout arrivals =>
    let r := read_body st bn size timeout arrivals
    (r.2.1, r.2.2.1, if r.2.2.2 = 1 then arrivals else [])

/-- Run a sequence of operations; returns the final state, the
concatenation of all bytes returned to the reader, and the concatenation
of all bytes delivered by the callback, both in order. -/
def runOps : ClientState → List Op → ClientState × List Nat × List Nat
  | st, [] => (st, [], [])
  | st, op :: rest =>
    let s := stepOp st op
    let r := runOps s.1 rest
    (r.1, s.2.1 ++ r.2.1, s.2.2 ++ r.2.2)

/-- Bytes are conserved by one `read_body` call: the pre-call window plus
whatever arrived during the wait equals the bytes copied out followed by
the post-call window. -/
theorem read_body_buffer (st : ClientState) (bn : Bool) (size timeout : Int)
    (arrivals : List Nat) :
    st.response_buff ++
        (if (read_body st bn size timeout arrivals).2.2.2 = 1 then arrivals else []) =
      (read_body st bn size timeout arrivals).2.2.1 ++
        (read_body st bn size timeout arrivals).2.1.response_buff := by
  unfold read_body
  split_ifs with h1 h2 <;> simp_all <;> split_ifs <;>
    simp_all [List.take_append_drop]

/-- Bytes are conserved by one operation: the pre-step window plus the
bytes delivered during the step equals the bytes returned to the reader
followed by the post-step window. -/
theorem stepOp_buffer (st : ClientState) (op : Op) :
    st.response_buff ++ (stepOp st op).2.2 =
      (stepOp st op).2.1 ++ (stepOp st op).1.response_buff := by
  cases op with
  | deliver sn sid dl bn chunk =>
    simp only [stepOp, on_data]
    cases sn <;> cases bn <;> cases hg : st.got_first_data <;>
      simp [hg] <;> split_ifs <;> simp_all
  | readOp bn size timeout arrivals =>
    exact read_body_buffer st bn size timeout arrivals

/-- Bytes are conserved by a whole run: the initial window plus everything
delivered equals everything returned to the reader followed by the final
window. -/
theorem runOps_buffer (ops : List Op) : ∀ st : ClientState,
    st.response_buff ++ (runOps st ops).2.2 =
      (runOps st ops).2.1 ++ (runOps st ops).1.response_buff := by
  induction ops with
  | nil => intro st; simp [runOps]
  | cons op rest ih =>
    intro st
    simp only [runOps]
    have h1 := stepOp_buffer st op
    have h2 := ih (stepOp st op).1
    calc st.response_buff ++ ((stepOp st op).2.2 ++ (runOps (stepOp st op).1 rest).2.2)
        = (st.response_buff ++ (stepOp st op).2.2) ++ (runOps (stepOp st op).1 rest).2.2 := by
          rw [List.append_assoc]
      _ = ((stepOp st op).2.1 ++ (stepOp st op).1.response_buff) ++
            (runOps (stepOp st op).1 rest).2.2 := by rw [h1]
      _ = (stepOp st op).2.1 ++ ((stepOp st op).1.response_buff ++
            (runOps (stepOp st op).1 rest).2.2) := by rw [List.append_assoc]
      _ = (stepOp st op).2.1 ++ ((runOps (stepOp st op).1 rest).2.1 ++
            (runOps (stepOp st op).1 rest).1.response_buff) := by rw [h2]
      _ = ((stepOp st op).2.1 ++ (runOps (stepOp st op).1 rest).2.1) ++
            (runOps (stepOp st op).1 rest).1.response_buff := by rw [List.append_assoc]

/-- C1: starting from an empty retained window, for every sequence of
delivery-callback invocations interleaved with `read_body` calls (no
seeks), the concatenation of the bytes returned by the reads equals the
concatenation of all delivered chunks truncated to the total number of
bytes read — no byte is lost, duplicated, or reordered. -/
theorem C1_reads_prefix_of_deliveries (st : ClientState) (ops : List Op)
    (h : st.response_buff = []) :
    (runOps st ops).2.1 =
      List.take (runOps st ops).2.1.length (runOps st ops).2.2 := by
  have hb := runOps_buffer ops st
  rw [h, List.nil_append] at hb
  rw [hb, List.take_left]

/-- C1 witness: a concrete run — two deliveries of `[1,2,3]` and `[4,5]`
around a 4-byte read — from the empty initial state. -/
theorem C1_reads_prefix_of_deliveries_witness :
    (runOps ⟨-1, 0, [], 0, false⟩
        [Op.deliver false 5 9 false [1, 2, 3],
         Op.readOp false 4 0 [],
         Op.deliver false 5 9 false [4, 5]]).2.1 =
      List.take (runOps ⟨-1, 0, [], 0, false⟩
        [Op.deliver false 5 9 false [1, 2, 3],
         Op.readOp false 4 0 [],
         Op.deliver false 5 9 false [4, 5]]).2.1.length
        (runOps ⟨-1, 0, [], 0, false⟩
        [Op.deliver false 5 9 false [1, 2, 3],
         Op.readOp false 4 0 [],
         Op.deliver false 5 9 false [4, 5]]).2.2 :=
  C1_reads_prefix_of_deliveries ⟨-1, 0, [], 0, false⟩ _ rfl

/-- C2: `is_buffer_sufficient` equals the spec's four ordered rules. -/
theorem C2_sufficiency_matches_spec (content_length read_offset : Int) (size : Nat) :
    is_buffer_sufficient content_length read_offset size =
      sufficiencySpec content_length read_offset size := by
  unfold is_buffer_sufficient sufficiencySpec
  split_ifs with h1 h2 h3 h4 <;> simp_all

/-- C3 counterexample: the claim fails as stated.  With
`content_length = 0` (a known length: the unknown sentinel is `-1`) and
`read_offset = 0 ≥ content_length`, a valid read returns the count `0`,
not the end-of-stream status, because the source guard at line 99 tests
`content_length_ > 0`, not `content_length_ != -1`; and with a null
buffer the invalid-argument guard at line 93 fires before the
end-of-stream guard. -/
theorem C3_eof_counterexample :
    (read_body ⟨0, 0, [], 1, true⟩ false 1 5 []).1 = ReadResult.ok 0 ∧
      ReadResult.ok 0 ≠ ReadResult.eof ∧
      (read_body ⟨1000, 1000, [], 1, true⟩ true 1 5 []).1 = ReadResult.invalidParam ∧
      ReadResult.invalidParam ≠ ReadResult.eof := by
  refine ⟨by decide, by decide, by decide, by decide⟩

/-- C3 (amended): for every non-null buffer, non-zero size and every
timeout, `read_body` returns the end-of-stream status whenever
`content_length` is positive and `read_offset ≥ content_length`,
regardless of the timeout value and of the retained buffer contents. -/
theorem C3_eof_when_past_content_length (st : ClientState) (size timeout : Int)
    (arrivals : List Nat) (hsz : size ≠ 0) (hcl : 0 < st.content_length)
    (hro : st.content_length ≤ st.read_offset) :
    (read_body st false size timeout arrivals).1 = ReadResult.eof := by
  unfold read_body
  simp [hsz, hcl, hro]

/-- C3 witness: `content_length = 1000`, `read_offset = 1000`, a 16-byte
read with a 100ms timeout returns end-of-stream. -/
theorem C3_eof_when_past_content_length_witness :
    (read_body ⟨1000, 1000, [3, 4], 7, true⟩ false 16 100 []).1 = ReadResult.eof :=
  C3_eof_when_past_content_length ⟨1000, 1000, [3, 4], 7, true⟩ 16 100 []
    (by decide) (by decide) (by decide)

/-- C10: when `content_length` is the unknown sentinel `-1`,
`seek_in_buffer` returns the NotSupported error for every whence mode and
every offset, stores nothing through the out-parameter, and leaves the
state unchanged: the unknown-length guard (source line 134) precedes
every other branch. -/
theorem C10_unknown_length_seek_not_supported (st : ClientState)
    (off whence : Int) (targetNull : Bool) (h : st.content_length = -1) :
    seek_in_buffer st off whence targetNull = (SeekResult.notSupported, st, none) := by
  unfold seek_in_buffer
  simp [h]

/-- C10 witness: with unknown length, a query-size seek, a no-op
relative seek and an absolute seek all return NotSupported. -/
theorem C10_unknown_length_seek_not_supported_witness :
    seek_in_buffer ⟨-1, 50, [1, 2], 3, true⟩ 0 AVSEEK_SIZE false =
        (SeekResult.notSupported, ⟨-1, 50, [1, 2], 3, true⟩, none) ∧
      seek_in_buffer ⟨-1, 50, [1, 2], 3, true⟩ 0 SEEK_CUR false =
        (SeekResult.notSupported, ⟨-1, 50, [1, 2], 3, true⟩, none) ∧
      seek_in_buffer ⟨-1, 50, [1, 2], 3, true⟩ 200 SEEK_SET true =
        (SeekResult.notSupported, ⟨-1, 50, [1, 2], 3, true⟩, none) :=
  ⟨C10_unknown_length_seek_not_supported _ 0 AVSEEK_SIZE false rfl,
   C10_unknown_length_seek_not_supported _ 0 SEEK_CUR false rfl,
   C10_unknown_length_seek_not_supported _ 200 SEEK_SET true rfl⟩

/-- C4 counterexample: the claim fails as stated.  With window
`[100, 100)` (retained size 0) and `read_offset = 100`, the absolute
target `100` is not strictly inside the window — it equals the window
end — so the claim requires a buffer-miss; but `seek_in_buffer` returns
`ok 100` through the no-op branch at source line 144. -/
theorem C4_seek_hit_miss_counterexample :
    (seek_in_buffer ⟨1000, 100, [], 5, true⟩ 100 SEEK_SET false).1 =
        SeekResult.ok 100 ∧
      SeekResult.ok (100 : Int) ≠ SeekResult.bufferNotHit := by
  exact ⟨by decide, by decide⟩

/-- C4 (amended): with `content_length` known, for a non-negative
absolute target `T`: if `read_offset < T < read_offset + retained_size`
then the seek consumes `T - read_offset` bytes from the head of the
window, sets `read_offset = T` and returns `T`; for any other
non-negative target distinct from `read_offset` it returns the
buffer-miss status, leaves the state unchanged and, when the
out-parameter is non-null, stores the resolved target in it (a target
equal to `read_offset` returns `read_offset` through the no-op branch). -/
theorem C4_seek_absolute_hit_or_miss (st : ClientState) (T : Int)
    (targetNull : Bool) (hcl : st.content_length ≠ -1) (hT : 0 ≤ T) :
    (st.read_offset < T ∧ T < st.read_offset + (st.response_buff.length : Int) →
      seek_in_buffer st T SEEK_SET targetNull =
        (SeekResult.ok T,
          { st with
              response_buff := st.response_buff.drop (T - st.read_offset).toNat,
              read_offset := T },
          none)) ∧
    (T ≠ st.read_offset →
      ¬ (st.read_offset < T ∧ T < st.read_offset + (st.response_buff.length : Int)) →
      seek_in_buffer st T SEEK_SET targetNull =
        (SeekResult.bufferNotHit, st, if targetNull then none else some T)) := by
  unfold seek_in_buffer
  rw [if_neg hcl]
  norm_num [SEEK_SET, SEEK_CUR, SEEK_END, AVSEEK_SIZE]
  constructor
  · intro h1 h2
    rw [if_neg (by omega), if_neg (by omega), if_pos (by constructor <;> omega)]
  · intro hne hmiss
    rw [if_neg hne, if_neg (by omega), if_neg (by omega)]

/-- C4 witness: with window `[100, 104)` and `read_offset = 100`,
`seek(102, SEEK_SET)` hits (consumes two bytes, returns 102) and
`seek(600, SEEK_SET)` misses (state unchanged, target 600 stored through
the non-null out-parameter). -/
theorem C4_seek_absolute_hit_or_miss_witness :
    seek_in_buffer ⟨1000, 100, [7, 8, 9, 10], 1, true⟩ 102 SEEK_SET false =
        (SeekResult.ok 102, ⟨1000, 102, [9, 10], 1, true⟩, none) ∧
      seek_in_buffer ⟨1000, 100, [7, 8, 9, 10], 1, true⟩ 600 SEEK_SET false =
        (SeekResult.bufferNotHit, ⟨1000, 100, [7, 8, 9, 10], 1, true⟩, some 600) := by
  constructor
  · exact (C4_seek_absolute_hit_or_miss ⟨1000, 100, [7, 8, 9, 10], 1, true⟩ 102 false
      (by decide) (by decide)).1 (by exact ⟨by decide, by decide⟩)
  · exact (C4_seek_absolute_hit_or_miss ⟨1000, 100, [7, 8, 9, 10], 1, true⟩ 600 false
      (by decide) (by decide)).2 (by decide) (by decide)

/-- C5: for every offset and out-parameter, a seek with
`whence = SEEK_END` on a state with unknown `content_length` returns
NotSupported, never the InvalidState error the spec requires: the
unknown-length guard at source line 134 fires first, and the dedicated
`content_length_ == -1 && whence == SEEK_END` arm at lines 149-152 —
whose body returns `kBeQuicErrorCode_Invalid_State` — is unreachable. -/
theorem C5_seek_end_unknown_returns_not_supported (off : Int) (targetNull : Bool) :
    (seek_in_buffer ⟨-1, 0, [], 1, true⟩ off SEEK_END targetNull).1 =
        SeekResult.notSupported ∧
      SeekResult.notSupported ≠ SeekResult.invalidState := by
  constructor
  · unfold seek_in_buffer
    norm_num
  · decide

/-- C6 counterexample: the claim fails as stated.  With
`read_offset = 100`, `seek(0, SEEK_CUR)` returns `ok 0` — the delta, via
`ret = off` at source line 145 — not the current `read_offset` 100. -/
theorem C6_noop_seek_counterexample :
    (seek_in_buffer ⟨1000, 100, [1, 2], 5, true⟩ 0 SEEK_CUR false).1 =
        SeekResult.ok 0 ∧
      SeekResult.ok (0 : Int) ≠ SeekResult.ok (100 : Int) := by
  exact ⟨by decide, by decide⟩

/-- C6 (amended): for every state with `content_length` known,
`seek(0, SEEK_CUR)` returns `ok 0` and `seek(read_offset, SEEK_SET)`
returns `ok read_offset`; both leave `read_offset` and the retained
buffer unchanged and store nothing through the out-parameter. -/
theorem C6_noop_seeks (st : ClientState) (targetNull : Bool)
    (h : st.content_length ≠ -1) :
    seek_in_buffer st 0 SEEK_CUR targetNull = (SeekResult.ok 0, st, none) ∧
      seek_in_buffer st st.read_offset SEEK_SET targetNull =
        (SeekResult.ok st.read_offset, st, none) := by
  unfold seek_in_buffer
  constructor <;> rw [if_neg h] <;> norm_num [SEEK_CUR, SEEK_SET, AVSEEK_SIZE]

/-- C6 witness: both no-op seeks on a concrete state with
`content_length = 1000` and `read_offset = 100`. -/
theorem C6_noop_seeks_witness :
    seek_in_buffer ⟨1000, 100, [1, 2], 5, true⟩ 0 SEEK_CUR true =
        (SeekResult.ok 0, ⟨1000, 100, [1, 2], 5, true⟩, none) ∧
      seek_in_buffer ⟨1000, 100, [1, 2], 5, true⟩ 100 SEEK_SET true =
        (SeekResult.ok 100, ⟨1000, 100, [1, 2], 5, true⟩, none) :=
  C6_noop_seeks ⟨1000, 100, [1, 2], 5, true⟩ true (by decide)

/-- C7 counterexample: the claim fails as stated.  A read with
`max_len = -1` is not rejected (only a null buffer or `max_len == 0`
is), yet the source computes
`std::min<size_t>((size_t)size, response_buff_.size())`, and the
`size_t` cast turns `-1` into `2^64 - 1`: with 3 bytes retained the code
copies 3 bytes and returns 3, while `min(max_len, retained_size)`
is `min(-1, 3) = -1 ≠ 3`. -/
theorem C7_read_min_counterexample :
    read_body ⟨-1, 0, [7, 8, 9], 1, true⟩ false (-1) 0 [] =
        (ReadResult.ok 3, ⟨-1, 3, [], 1, true⟩, [7, 8, 9], 0) ∧
      min (-1 : Int) 3 ≠ 3 := by
  exact ⟨by decide, by decide⟩

/-- C7 (amended): for positive `max_len` (within the `int` range), a read
that is not rejected as invalid-argument or end-of-stream copies exactly
`min(max_len, retained_size)` bytes out of the head of the retained
window (the window as it stands when the copy step is reached, i.e.
after the single optional wait), removes them from the window, advances
`read_offset` by exactly that amount, and returns that count, `0`
included. -/
theorem C7_read_copies_min (st : ClientState) (size timeout : Int)
    (arrivals : List Nat) (hsz : 0 < size) (hszb : size < 2 ^ 31)
    (hnoeof : ¬ (0 < st.content_length ∧ st.content_length ≤ st.read_offset)) :
    (read_body st false size timeout arrivals).1 =
        ReadResult.ok (min size.toNat (postWaitWindow st timeout arrivals).length) ∧
      (read_body st false size timeout arrivals).2.1.response_buff =
        (postWaitWindow st timeout arrivals).drop
          (min size.toNat (postWaitWindow st timeout arrivals).length) ∧
      (read_body st false size timeout arrivals).2.1.read_offset =
        st.read_offset +
          ((min size.toNat (postWaitWindow st timeout arrivals).length : Nat) : Int) ∧
      (read_body st false size timeout arrivals).2.2.1 =
        (postWaitWindow st timeout arrivals).take
          (min size.toNat (postWaitWindow st timeout arrivals).length) := by
  have hcast : castSizeT size = size.toNat := by
    unfold castSizeT
    rw [Int.emod_eq_of_lt (by omega) (by norm_num; omega)]
  unfold read_body postWaitWindow
  rw [if_neg (by simp; omega), if_neg hnoeof]
  simp only [hcast]
  by_cases hs : is_buffer_sufficient st.content_length st.read_offset
      st.response_buff.length = true
  · rw [if_pos (Or.inl hs)]
    simp only [hs, ite_true]
    norm_num
    split_ifs with h0
    · rcases h0 with h0 | h0
      · exact absurd h0 (by omega)
      · refine ⟨by simp [h0], by simp [h0], by simp [h0], by simp [h0]⟩
    · exact ⟨rfl, rfl, rfl, rfl⟩
  · by_cases ht : timeout = 0
    · rw [if_pos (Or.inr ht)]
      simp only [hs, ht, ite_true, ite_false]
      norm_num
      split_ifs with h0
      · rcases h0 with h0 | h0
        · exact absurd h0 (by omega)
        · refine ⟨by simp [h0], by simp [h0], by simp [h0], by simp [h0]⟩
      · exact ⟨rfl, rfl, rfl, rfl⟩
    · rw [if_neg (show ¬ (is_buffer_sufficient st.content_length st.read_offset
          st.response_buff.length = true ∨ timeout = 0) by simp [hs, ht])]
      rw [if_neg hs, if_neg ht, if_pos (rfl : (1 : Nat) = 1)]
      split_ifs with h0
      · rw [Nat.min_eq_zero_iff] at h0
        rcases h0 with h0 | h0
        · exact absurd h0 (by omega)
        · rw [List.length_eq_zero, List.append_eq_nil] at h0
          obtain ⟨hb, ha⟩ := h0
          refine ⟨by simp [hb, ha], by simp [hb, ha], by simp [hb, ha], by simp [hb, ha]⟩
      · exact ⟨rfl, rfl, rfl, rfl⟩

/-- C7 witness: with 2 bytes retained and a sufficient buffer
(`content_length` close to `read_offset`), a 5-byte read returns 2,
drains the window and advances the offset by 2. -/
theorem C7_read_copies_min_witness :
    (read_body ⟨20, 18, [7, 8], 1, true⟩ false 5 0 []).1 = ReadResult.ok 2 ∧
      (read_body ⟨20, 18, [7, 8], 1, true⟩ false 5 0 []).2.1.response_buff = [] ∧
      (read_body ⟨20, 18, [7, 8], 1, true⟩ false 5 0 []).2.1.read_offset = 20 ∧
      (read_body ⟨20, 18, [7, 8], 1, true⟩ false 5 0 []).2.2.1 = [7, 8] := by
  have h := C7_read_copies_min ⟨20, 18, [7, 8], 1, true⟩ 5 0 []
    (by decide) (by decide) (by decide)
  simpa [postWaitWindow] using h

/-- C8: `close_current_stream` returns false and changes no state when no
stream is bound (`current_stream_id_ == 0`) or no session exists;
otherwise it clears `current_stream_id_` to the unbound value 0, resets
`read_offset_` to 0, drains the retained window to size 0, and returns
true; consequently a second consecutive call returns false and is a
no-op. -/
theorem C8_close_idempotent (st : ClientState) (sessionNull sessionNull2 : Bool) :
    (st.current_stream_id = 0 ∨ sessionNull = true →
      close_current_stream st sessionNull = (false, st)) ∧
    (st.current_stream_id ≠ 0 → sessionNull = false →
      close_current_stream st sessionNull =
        (true, { st with current_stream_id := 0, read_offset := 0, response_buff := [] }) ∧
      close_current_stream (close_current_stream st sessionNull).2 sessionNull2 =
        (false, (close_current_stream st sessionNull).2)) := by
  unfold close_current_stream
  constructor
  · rintro (h | h) <;> simp [h]
  · intro h1 h2
    simp [h1, h2]

/-- C8 witness: closing a bound stream with a live session succeeds and
resets offset and window; the immediately following close is a refused
no-op. -/
theorem C8_close_idempotent_witness :
    close_current_stream ⟨1000, 50, [1, 2], 7, true⟩ false =
        (true, ⟨1000, 0, [], 0, true⟩) ∧
      close_current_stream (close_current_stream ⟨1000, 50, [1, 2], 7, true⟩ false).2 false =
        (false, (close_current_stream ⟨1000, 50, [1, 2], 7, true⟩ false).2) :=
  (C8_close_idempotent ⟨1000, 50, [1, 2], 7, true⟩ false false).2 (by decide) rfl

/-- C9: every `read_body` call performs at most one condition wait; with
`timeout == 0` it performs none; and whenever the call is not rejected as
invalid-argument or end-of-stream it proceeds to return a byte count —
it never re-checks sufficiency and waits a second time. -/
theorem C9_single_wait (st : ClientState) (bufNull : Bool) (size timeout : Int)
    (arrivals : List Nat) :
    (read_body st bufNull size timeout arrivals).2.2.2 ≤ 1 ∧
      (timeout = 0 → (read_body st bufNull size timeout arrivals).2.2.2 = 0) ∧
      (bufNull = false → size ≠ 0 →
        ¬ (0 < st.content_length ∧ st.content_length ≤ st.read_offset) →
        ∃ n, (read_body st bufNull size timeout arrivals).1 = ReadResult.ok n) := by
  unfold read_body
  by_cases hb : bufNull = true ∨ size = 0
  · refine ⟨by simp [hb], by simp [hb], ?_⟩
    intro h1 h2
    rcases hb with hb | hb <;> simp_all
  · by_cases he : 0 < st.content_length ∧ st.content_length ≤ st.read_offset
    · refine ⟨by simp [hb, he], by simp [hb, he], ?_⟩
      intro _ _ h3
      exact absurd he h3
    · refine ⟨?_, ?_, ?_⟩ <;> simp only [hb, he, if_false, ite_false]
      · split_ifs <;> simp
      · intro ht
        split_ifs <;> simp_all
      · intro _ _ _
        split_ifs <;> exact ⟨_, rfl⟩

/-- C9 witness: on an empty unknown-length window a read with
`timeout = 100` waits exactly once then returns the two bytes delivered
during the wait; with `timeout = 0` it performs no wait. -/
theorem C9_single_wait_witness :
    (read_body ⟨-1, 0, [], 0, false⟩ false 4 100 [1, 2]).2.2.2 ≤ 1 ∧
      (read_body ⟨-1, 0, [], 5, false⟩ false 4 0 []).2.2.2 = 0 ∧
      ∃ n, (read_body ⟨-1, 0, [], 0, false⟩ false 4 100 [1, 2]).1 = ReadResult.ok n :=
  ⟨(C9_single_wait ⟨-1, 0, [], 0, false⟩ false 4 100 [1, 2]).1,
   (C9_single_wait ⟨-1, 0, [], 5, false⟩ false 4 0 []).2.1 rfl,
   (C9_single_wait ⟨-1, 0, [], 0, false⟩ false 4 100 [1, 2]).2.2 rfl
     (by decide) (by decide)⟩
